import Mathlib

/-!
Shallow embedding of the L2OAM frame codec, dispatcher, sequencer and ONU
status ledger of the voltha-eponolt-adapter repository, together with proofs
about the behaviour its specification describes.

Conventions of the embedding:
* Go byte slices are `List Nat`; every stored byte is the value the Go code
  wrote (writes of `uint8`/`uint16`/`uint32` fields truncate with `% 256`,
  `% 65536`, `% 2^32` exactly as the Go integer types do).
* `copy(dst, src)` into a freshly zeroed region of size `n` yields
  `copyPad n src`: the first `min n src.length` bytes of `src` followed by
  zeros (gopacket serialize buffers are zero initialised).
* A Go operation that can panic on out-of-range indexing or slicing, or that
  returns an error, is modelled with `Option`: `none` is the
  panic/error outcome.
* Sequential cursor-based decoders (`i := 0; v := data[i]; i++; ...`) are
  modelled as consuming parsers over the remaining list; the cursor advances
  in the source exactly as the list is consumed here.
-/

namespace EponOlt

/-- Byte lists stand in for Go `[]byte`. -/
abbrev Bytes := List Nat

/-- `binary.BigEndian.Uint16`: combine two bytes, most significant first. -/
def u16 (b0 b1 : Nat) : Nat := b0 * 256 + b1

/-- `binary.BigEndian.PutUint16`: the two big-endian bytes of a `uint16`. -/
def u16BE (v : Nat) : Bytes := [v / 256 % 256, v % 256]

/-- `binary.BigEndian.PutUint32`: the four big-endian bytes of a `uint32`. -/
def u32BE (v : Nat) : Bytes :=
  [v / 16777216 % 256, v / 65536 % 256, v / 256 % 256, v % 256]

/-- Go `copy` of `v` into a zero-initialised region of exactly `n` bytes:
    `min n v.length` bytes of `v` are copied, the rest of the region keeps
    its zeros. -/
def copyPad (n : Nat) (v : Bytes) : Bytes :=
  v.take n ++ List.replicate (n - v.length) 0

theorem copyPad_length (n : Nat) (v : Bytes) : (copyPad n v).length = n := by
  simp [copyPad]
  omega

theorem copyPad_exact (v : Bytes) : copyPad v.length v = v := by
  simp [copyPad]

theorem u16_u16BE (v : Nat) (h : v < 65536) :
    u16 (v / 256 % 256) (v % 256) = v := by
  simp only [u16]
  omega

/-! ### Discovery frames (`msg_discovery.go`)

`DiscoverySolicit` and `DiscoveryHello` are flat sequences of
`{type:u8, length:u16, bytes}` fields.  `SerializeTo` fills a buffer of
`Len()` bytes by a running cursor; `Decode` re-reads the same fields
positionally. -/

/-- `DiscoverySolicit` struct from `msg_discovery.go`. -/
structure DiscoverySolicit where
  Opcode : Nat
  DiscoveryType : Nat
  VendorType : Nat
  Length : Nat
  VendorIDType : Nat
  VendorIDLength : Nat
  VendorID : Bytes
  CPType : Nat
  CPLength : Nat
  CPValue : Bytes
  NWType : Nat
  NWLength : Nat
  NWValue : Bytes
  DVType : Nat
  DVLength : Nat
  DVValue : Bytes
  SCPType : Nat
  SCPLength : Nat
  SCPValue : Bytes
  PadType : Nat
  PadLength : Nat
  PadValue : Bytes
  deriving DecidableEq, Repr

/-- One `{type:u8, length:u16, value}` section as the serializer emits it:
    the type byte, the two length bytes, then a region of exactly
    `len` bytes filled from `v` by Go `copy`. -/
def tlv16 (t len : Nat) (v : Bytes) : Bytes :=
  [t % 256] ++ u16BE len ++ copyPad len v

/-- `DiscoverySolicit.Len`: `(2) + (3) + Length + (PadLength + 3)`. -/
def DiscoverySolicit.Len (d : DiscoverySolicit) : Nat :=
  2 + 3 + d.Length + (d.PadLength + 3)

/-- The byte stream `DiscoverySolicit.SerializeTo` writes, in write order. -/
def DiscoverySolicit.body (d : DiscoverySolicit) : Bytes :=
  [d.Opcode % 256, d.DiscoveryType % 256, d.VendorType % 256] ++ u16BE d.Length
  ++ tlv16 d.VendorIDType d.VendorIDLength d.VendorID
  ++ tlv16 d.CPType d.CPLength d.CPValue
  ++ tlv16 d.NWType d.NWLength d.NWValue
  ++ tlv16 d.DVType d.DVLength d.DVValue
  ++ tlv16 d.SCPType d.SCPLength d.SCPValue
  ++ tlv16 d.PadType d.PadLength d.PadValue

/-- `DiscoverySolicit.SerializeTo`: the writes land in a buffer of `Len()`
    zeroed bytes; unwritten tail bytes stay zero, and a write beyond the
    buffer is the panic outcome `none`. -/
def DiscoverySolicit.serializeTo (d : DiscoverySolicit) : Option Bytes :=
  let bs := d.body
  if bs.length ≤ d.Len then some (bs ++ List.replicate (d.Len - bs.length) 0)
  else none

/-- One step of the positional decoders: read a type byte, a big-endian
    `uint16` length, then slice that many value bytes; out-of-range reads
    are the panic outcome `none`.  Returns the parsed field and the rest. -/
def parseTlv16 : Bytes → Option ((Nat × Nat × Bytes) × Bytes)
  | t :: l0 :: l1 :: rest =>
      let len := u16 l0 l1
      if len ≤ rest.length then some ((t, len, rest.take len), rest.drop len)
      else none
  | _ => none

/-- `DiscoverySolicit.Decode`: header bytes then the six sections in order.
    The Go decoder never looks at bytes past the final `PadValue` slice. -/
def DiscoverySolicit.decode (data : Bytes) : Option DiscoverySolicit := do
  match data with
  | op :: dt :: vt :: l0 :: l1 :: rest =>
      let ((vidT, vidL, vidV), r1) ← parseTlv16 rest
      let ((cpT, cpL, cpV), r2) ← parseTlv16 r1
      let ((nwT, nwL, nwV), r3) ← parseTlv16 r2
      let ((dvT, dvL, dvV), r4) ← parseTlv16 r3
      let ((scpT, scpL, scpV), r5) ← parseTlv16 r4
      let ((padT, padL, padV), _) ← parseTlv16 r5
      pure
        { Opcode := op, DiscoveryType := dt, VendorType := vt,
          Length := u16 l0 l1,
          VendorIDType := vidT, VendorIDLength := vidL, VendorID := vidV,
          CPType := cpT, CPLength := cpL, CPValue := cpV,
          NWType := nwT, NWLength := nwL, NWValue := nwV,
          DVType := dvT, DVLength := dvL, DVValue := dvV,
          SCPType := scpT, SCPLength := scpL, SCPValue := scpV,
          PadType := padT, PadLength := padL, PadValue := padV }
  | _ => none

/-- A legal `DiscoverySolicit`: every field fits its Go integer type, every
    section's length field equals the byte count of the value it declares,
    and the overall `Length` declares the bytes following it without the
    padding section (the shape §4.1 fixes). -/
def DiscoverySolicit.Wellformed (d : DiscoverySolicit) : Prop :=
  d.Opcode < 256 ∧ d.DiscoveryType < 256 ∧ d.VendorType < 256 ∧
  d.Length < 65536 ∧
  d.VendorIDType < 256 ∧ d.VendorIDLength < 65536 ∧
  d.VendorIDLength = d.VendorID.length ∧
  d.CPType < 256 ∧ d.CPLength < 65536 ∧ d.CPLength = d.CPValue.length ∧
  d.NWType < 256 ∧ d.NWLength < 65536 ∧ d.NWLength = d.NWValue.length ∧
  d.DVType < 256 ∧ d.DVLength < 65536 ∧ d.DVLength = d.DVValue.length ∧
  d.SCPType < 256 ∧ d.SCPLength < 65536 ∧ d.SCPLength = d.SCPValue.length ∧
  d.PadType < 256 ∧ d.PadLength < 65536 ∧ d.PadLength = d.PadValue.length ∧
  d.Length = (3 + d.VendorIDLength) + (3 + d.CPLength) + (3 + d.NWLength) +
    (3 + d.DVLength) + (3 + d.SCPLength)

instance (d : DiscoverySolicit) : Decidable d.Wellformed := by
  unfold DiscoverySolicit.Wellformed
  infer_instance

theorem parseTlv16_section (t len : Nat) (v rest : Bytes)
    (hlen : len = v.length) (ht : t < 256) (hl : len < 65536) :
    parseTlv16 (tlv16 t len v ++ rest) = some ((t, len, v), rest) := by
  have hv : copyPad len v = v := by rw [hlen]; exact copyPad_exact v
  simp only [tlv16, u16BE, hv, List.cons_append, List.append_assoc,
    List.nil_append, parseTlv16]
  rw [Nat.mod_eq_of_lt ht, u16_u16BE len hl]
  have hle : len ≤ (v ++ rest).length := by simp [hlen]
  rw [if_pos hle, hlen, List.take_left, List.drop_left]

theorem parseTlv16_closed (t len : Nat) (v : Bytes)
    (hlen : len = v.length) (ht : t < 256) (hl : len < 65536) :
    parseTlv16 (tlv16 t len v) = some ((t, len, v), []) := by
  have := parseTlv16_section t len v [] hlen ht hl
  simpa using this

theorem solicitBodyLength (d : DiscoverySolicit)
    (h : d.Wellformed) : d.body.length = d.Len := by
  obtain ⟨-, -, -, -, -, -, -, -, -, -, -, -, -, -, -, -, -, -, -, -, -,
    hp, hsum⟩ := h
  simp [DiscoverySolicit.body, DiscoverySolicit.Len, tlv16, u16BE,
    copyPad_length, hsum]
  omega

theorem solicitDecodeBody (d : DiscoverySolicit)
    (h : d.Wellformed) : DiscoverySolicit.decode d.body = some d := by
  obtain ⟨h1, h2, h3, h4, h5, h6, h7, h8, h9, h10, h11, h12, h13, h14, h15,
    h16, h17, h18, h19, h20, h21, h22, h23⟩ := h
  cases d with
  | mk op dt vt L vidT vidL vid cpT cpL cp nwT nwL nw dvT dvL dv
      scpT scpL scp padT padL pad =>
  simp only [DiscoverySolicit.body, u16BE, List.cons_append,
    List.nil_append, List.append_assoc] at *
  simp [DiscoverySolicit.decode,
    parseTlv16_section vidT vidL vid _ h7 h5 h6,
    parseTlv16_section cpT cpL cp _ h10 h8 h9,
    parseTlv16_section nwT nwL nw _ h13 h11 h12,
    parseTlv16_section dvT dvL dv _ h16 h14 h15,
    parseTlv16_section scpT scpL scp _ h19 h17 h18,
    parseTlv16_closed padT padL pad h22 h20 h21,
    Nat.mod_eq_of_lt h1, Nat.mod_eq_of_lt h2, Nat.mod_eq_of_lt h3,
    u16_u16BE L h4]

theorem solicitRoundtrip (d : DiscoverySolicit)
    (h : d.Wellformed) :
    d.serializeTo.bind DiscoverySolicit.decode = some d := by
  have hlen := solicitBodyLength d h
  simp [DiscoverySolicit.serializeTo, hlen,
    solicitDecodeBody d h]

/-- `DiscoveryHello` struct from `msg_discovery.go`: like the solicit but
    with a Tunnel section instead of Controller-Priority. -/
structure DiscoveryHello where
  Opcode : Nat
  DiscoveryType : Nat
  VendorType : Nat
  Length : Nat
  VendorIDType : Nat
  VendorIDLength : Nat
  VendorID : Bytes
  NWType : Nat
  NWLength : Nat
  NWValue : Bytes
  DVType : Nat
  DVLength : Nat
  DVValue : Bytes
  SCPType : Nat
  SCPLength : Nat
  SCPValue : Bytes
  TunnelType : Nat
  TunnelLength : Nat
  TunnelValue : Bytes
  PadType : Nat
  PadLength : Nat
  PadValue : Bytes
  deriving DecidableEq, Repr

/-- `DiscoveryHello.Len`: `(2) + (3) + Length + (PadLength + 3)`. -/
def DiscoveryHello.Len (d : DiscoveryHello) : Nat :=
  2 + 3 + d.Length + (d.PadLength + 3)

/-- The byte stream `DiscoveryHello.SerializeTo` writes, in write order. -/
def DiscoveryHello.body (d : DiscoveryHello) : Bytes :=
  [d.Opcode % 256, d.DiscoveryType % 256, d.VendorType % 256] ++ u16BE d.Length
  ++ tlv16 d.VendorIDType d.VendorIDLength d.VendorID
  ++ tlv16 d.NWType d.NWLength d.NWValue
  ++ tlv16 d.DVType d.DVLength d.DVValue
  ++ tlv16 d.SCPType d.SCPLength d.SCPValue
  ++ tlv16 d.TunnelType d.TunnelLength d.TunnelValue
  ++ tlv16 d.PadType d.PadLength d.PadValue

/-- `DiscoveryHello.SerializeTo`, with the same buffer conventions as
    `DiscoverySolicit.serializeTo`. -/
def DiscoveryHello.serializeTo (d : DiscoveryHello) : Option Bytes :=
  let bs := d.body
  if bs.length ≤ d.Len then some (bs ++ List.replicate (d.Len - bs.length) 0)
  else none

/-- `DiscoveryHello.Decode`: header bytes then the six sections in order. -/
def DiscoveryHello.decode (data : Bytes) : Option DiscoveryHello := do
  match data with
  | op :: dt :: vt :: l0 :: l1 :: rest =>
      let ((vidT, vidL, vidV), r1) ← parseTlv16 rest
      let ((nwT, nwL, nwV), r2) ← parseTlv16 r1
      let ((dvT, dvL, dvV), r3) ← parseTlv16 r2
      let ((scpT, scpL, scpV), r4) ← parseTlv16 r3
      let ((tnT, tnL, tnV), r5) ← parseTlv16 r4
      let ((padT, padL, padV), _) ← parseTlv16 r5
      pure
        { Opcode := op, DiscoveryType := dt, VendorType := vt,
          Length := u16 l0 l1,
          VendorIDType := vidT, VendorIDLength := vidL, VendorID := vidV,
          NWType := nwT, NWLength := nwL, NWValue := nwV,
          DVType := dvT, DVLength := dvL, DVValue := dvV,
          SCPType := scpT, SCPLength := scpL, SCPValue := scpV,
          TunnelType := tnT, TunnelLength := tnL, TunnelValue := tnV,
          PadType := padT, PadLength := padL, PadValue := padV }
  | _ => none

/-- A legal `DiscoveryHello`, in the same sense as
    `DiscoverySolicit.Wellformed`. -/
def DiscoveryHello.Wellformed (d : DiscoveryHello) : Prop :=
  d.Opcode < 256 ∧ d.DiscoveryType < 256 ∧ d.VendorType < 256 ∧
  d.Length < 65536 ∧
  d.VendorIDType < 256 ∧ d.VendorIDLength < 65536 ∧
  d.VendorIDLength = d.VendorID.length ∧
  d.NWType < 256 ∧ d.NWLength < 65536 ∧ d.NWLength = d.NWValue.length ∧
  d.DVType < 256 ∧ d.DVLength < 65536 ∧ d.DVLength = d.DVValue.length ∧
  d.SCPType < 256 ∧ d.SCPLength < 65536 ∧ d.SCPLength = d.SCPValue.length ∧
  d.TunnelType < 256 ∧ d.TunnelLength < 65536 ∧
  d.TunnelLength = d.TunnelValue.length ∧
  d.PadType < 256 ∧ d.PadLength < 65536 ∧ d.PadLength = d.PadValue.length ∧
  d.Length = (3 + d.VendorIDLength) + (3 + d.NWLength) + (3 + d.DVLength) +
    (3 + d.SCPLength) + (3 + d.TunnelLength)

instance (d : DiscoveryHello) : Decidable d.Wellformed := by
  unfold DiscoveryHello.Wellformed
  infer_instance

theorem helloBodyLength (d : DiscoveryHello)
    (h : d.Wellformed) : d.body.length = d.Len := by
  obtain ⟨-, -, -, -, -, -, -, -, -, -, -, -, -, -, -, -, -, -, -, -, -,
    hp, hsum⟩ := h
  simp [DiscoveryHello.body, DiscoveryHello.Len, tlv16, u16BE,
    copyPad_length, hsum]
  omega

theorem helloDecodeBody (d : DiscoveryHello)
    (h : d.Wellformed) : DiscoveryHello.decode d.body = some d := by
  obtain ⟨h1, h2, h3, h4, h5, h6, h7, h8, h9, h10, h11, h12, h13, h14, h15,
    h16, h17, h18, h19, h20, h21, h22, h23⟩ := h
  cases d with
  | mk op dt vt L vidT vidL vid nwT nwL nw dvT dvL dv scpT scpL scp
      tnT tnL tn padT padL pad =>
  simp only [DiscoveryHello.body, u16BE, List.cons_append,
    List.nil_append, List.append_assoc] at *
  simp [DiscoveryHello.decode,
    parseTlv16_section vidT vidL vid _ h7 h5 h6,
    parseTlv16_section nwT nwL nw _ h10 h8 h9,
    parseTlv16_section dvT dvL dv _ h13 h11 h12,
    parseTlv16_section scpT scpL scp _ h16 h14 h15,
    parseTlv16_section tnT tnL tn _ h19 h17 h18,
    parseTlv16_closed padT padL pad h22 h20 h21,
    Nat.mod_eq_of_lt h1, Nat.mod_eq_of_lt h2, Nat.mod_eq_of_lt h3,
    u16_u16BE L h4]

theorem helloRoundtrip (d : DiscoveryHello)
    (h : d.Wellformed) :
    d.serializeTo.bind DiscoveryHello.decode = some d := by
  have hlen := helloBodyLength d h
  simp [DiscoveryHello.serializeTo, hlen, helloDecodeBody d h]

/-! ### OAMPDU Information (keepalive) frames (`OAMPDUInformation`)

Three optional TLVs whose length byte counts the whole TLV including the
type and length bytes themselves; the decoder walks TLVs until a
zero length or the end of the buffer, dispatching on the type byte. -/

/-- TLV type `0x01`, Local Information. -/
def OampduTlvTypeLocalInfo : Nat := 0x01

/-- TLV type `0x02`, Remote Information. -/
def OampduTlvTypeRemoteInfo : Nat := 0x02

/-- TLV type `0xfe`, Organization Specific Information. -/
def OampduTlvTypeOrganizationSpecificInfo : Nat := 0xfe

/-- `OAMPDUInformation` struct. -/
structure OAMPDUInformation where
  Opcode : Nat
  Flags : Nat
  Code : Nat
  LIType : Nat
  LILength : Nat
  LIValue : Bytes
  RIType : Nat
  RILength : Nat
  RIValue : Bytes
  OSIType : Nat
  OSILength : Nat
  OSIValue : Bytes
  deriving DecidableEq, Repr

/-- `OAMPDUInformation.Len`: `(1) + (3) + LILength + RILength + OSILength`. -/
def OAMPDUInformation.Len (d : OAMPDUInformation) : Nat :=
  1 + 3 + d.LILength + d.RILength + d.OSILength

/-- One serialized OAMPDU TLV occupying `len` bytes total: the type byte,
    the length byte, then a `len - 2` byte region filled from `v` by Go
    `copy`. -/
def tlv8 (t len : Nat) (v : Bytes) : Bytes :=
  [t % 256, len % 256] ++ copyPad (len - 2) v

/-- The byte stream `OAMPDUInformation.SerializeTo` writes: the header,
    then each TLV whose length is non-zero. -/
def OAMPDUInformation.body (d : OAMPDUInformation) : Bytes :=
  [d.Opcode % 256] ++ u16BE d.Flags ++ [d.Code % 256]
  ++ (if d.LILength ≠ 0 then tlv8 d.LIType d.LILength d.LIValue else [])
  ++ (if d.RILength ≠ 0 then tlv8 d.RIType d.RILength d.RIValue else [])
  ++ (if d.OSILength ≠ 0 then tlv8 d.OSIType d.OSILength d.OSIValue else [])

/-- `OAMPDUInformation.SerializeTo`.  A present TLV with length byte `1`
    makes the Go serializer slice `data[i+2 : i+1]`, which panics: that is
    the `none` outcome.  Otherwise the writes fill the `Len()`-byte buffer
    exactly. -/
def OAMPDUInformation.serializeTo (d : OAMPDUInformation) : Option Bytes :=
  if (d.LILength = 0 ∨ 2 ≤ d.LILength) ∧ (d.RILength = 0 ∨ 2 ≤ d.RILength) ∧
      (d.OSILength = 0 ∨ 2 ≤ d.OSILength) then
    some d.body
  else none

/-- The TLV walk of `OAMPDUInformation.Decode`: stop at the end of the
    buffer or at a zero length byte; dispatch on the type byte; a TLV
    length of `1`, a truncated value slice, a lone trailing byte, or an
    unknown type byte are the panic/error outcomes `none`. -/
def OAMPDUInformation.decodeTlvs (d : OAMPDUInformation) :
    Bytes → Option OAMPDUInformation
  | [] => some d
  | [_] => none
  | t :: l :: rest =>
      if l = 0 then some d
      else if 2 ≤ l ∧ l - 2 ≤ rest.length then
        let v := rest.take (l - 2)
        let rest' := rest.drop (l - 2)
        if t = OampduTlvTypeLocalInfo then
          OAMPDUInformation.decodeTlvs
            { d with LIType := t, LILength := l, LIValue := v } rest'
        else if t = OampduTlvTypeRemoteInfo then
          OAMPDUInformation.decodeTlvs
            { d with RIType := t, RILength := l, RIValue := v } rest'
        else if t = OampduTlvTypeOrganizationSpecificInfo then
          OAMPDUInformation.decodeTlvs
            { d with OSIType := t, OSILength := l, OSIValue := v } rest'
        else none
      else none
  termination_by l => l.length
  decreasing_by
    all_goals simp [List.length_drop]; omega

/-- `OAMPDUInformation.Decode` starting from a zero-valued struct (as at
    every decode call site): header fields, then the TLV walk. -/
def OAMPDUInformation.decode (data : Bytes) : Option OAMPDUInformation :=
  match data with
  | op :: f0 :: f1 :: c :: rest =>
      OAMPDUInformation.decodeTlvs
        { Opcode := op, Flags := u16 f0 f1, Code := c,
          LIType := 0, LILength := 0, LIValue := [],
          RIType := 0, RILength := 0, RIValue := [],
          OSIType := 0, OSILength := 0, OSIValue := [] } rest
  | _ => none

/-- A legal `OAMPDUInformation`: header fields fit their Go types and each
    TLV is either absent (zero length, zero type, empty value — the zero
    struct state the decoder leaves untouched) or carries the type code
    §4.1 fixes for it with a length byte covering type, length and value
    bytes. -/
def OAMPDUInformation.Wellformed (d : OAMPDUInformation) : Prop :=
  d.Opcode < 256 ∧ d.Flags < 65536 ∧ d.Code < 256 ∧
  ((d.LILength = 0 ∧ d.LIType = 0 ∧ d.LIValue = []) ∨
    (d.LIType = OampduTlvTypeLocalInfo ∧
      d.LILength = d.LIValue.length + 2 ∧ d.LILength < 256)) ∧
  ((d.RILength = 0 ∧ d.RIType = 0 ∧ d.RIValue = []) ∨
    (d.RIType = OampduTlvTypeRemoteInfo ∧
      d.RILength = d.RIValue.length + 2 ∧ d.RILength < 256)) ∧
  ((d.OSILength = 0 ∧ d.OSIType = 0 ∧ d.OSIValue = []) ∨
    (d.OSIType = OampduTlvTypeOrganizationSpecificInfo ∧
      d.OSILength = d.OSIValue.length + 2 ∧ d.OSILength < 256))

instance (d : OAMPDUInformation) : Decidable d.Wellformed := by
  unfold OAMPDUInformation.Wellformed
  infer_instance

theorem OAMPDUInformation.decodeTlvs_li (d : OAMPDUInformation) (l : Nat)
    (v rest : Bytes) (hl : l = v.length + 2) (hlt : l < 256) :
    OAMPDUInformation.decodeTlvs d
      (tlv8 OampduTlvTypeLocalInfo l v ++ rest) =
    OAMPDUInformation.decodeTlvs
      { d with LIType := OampduTlvTypeLocalInfo, LILength := l,
               LIValue := v } rest := by
  have hv : copyPad (l - 2) v = v := by
    rw [hl]; simpa using copyPad_exact v
  have hl2 : l - 2 = v.length := by omega
  simp only [tlv8, List.cons_append, List.append_assoc, List.nil_append,
    hv, Nat.mod_eq_of_lt hlt]
  rw [OAMPDUInformation.decodeTlvs]
  have hcond : 2 ≤ l ∧ l - 2 ≤ (v ++ rest).length := by
    simp; omega
  rw [if_neg (by omega : ¬ l = 0), if_pos hcond]
  simp only [hl2, List.take_left, List.drop_left,
    OampduTlvTypeLocalInfo]
  norm_num

theorem OAMPDUInformation.decodeTlvs_ri (d : OAMPDUInformation) (l : Nat)
    (v rest : Bytes) (hl : l = v.length + 2) (hlt : l < 256) :
    OAMPDUInformation.decodeTlvs d
      (tlv8 OampduTlvTypeRemoteInfo l v ++ rest) =
    OAMPDUInformation.decodeTlvs
      { d with RIType := OampduTlvTypeRemoteInfo, RILength := l,
               RIValue := v } rest := by
  have hv : copyPad (l - 2) v = v := by
    rw [hl]; simpa using copyPad_exact v
  have hl2 : l - 2 = v.length := by omega
  simp only [tlv8, List.cons_append, List.append_assoc, List.nil_append,
    hv, Nat.mod_eq_of_lt hlt]
  rw [OAMPDUInformation.decodeTlvs]
  have hcond : 2 ≤ l ∧ l - 2 ≤ (v ++ rest).length := by
    simp; omega
  rw [if_neg (by omega : ¬ l = 0), if_pos hcond]
  simp only [hl2, List.take_left, List.drop_left,
    OampduTlvTypeRemoteInfo, OampduTlvTypeLocalInfo]
  norm_num

theorem OAMPDUInformation.decodeTlvs_osi (d : OAMPDUInformation) (l : Nat)
    (v rest : Bytes) (hl : l = v.length + 2) (hlt : l < 256) :
    OAMPDUInformation.decodeTlvs d
      (tlv8 OampduTlvTypeOrganizationSpecificInfo l v ++ rest) =
    OAMPDUInformation.decodeTlvs
      { d with OSIType := OampduTlvTypeOrganizationSpecificInfo,
               OSILength := l, OSIValue := v } rest := by
  have hv : copyPad (l - 2) v = v := by
    rw [hl]; simpa using copyPad_exact v
  have hl2 : l - 2 = v.length := by omega
  simp only [tlv8, List.cons_append, List.append_assoc, List.nil_append,
    hv, Nat.mod_eq_of_lt hlt]
  rw [OAMPDUInformation.decodeTlvs]
  have hcond : 2 ≤ l ∧ l - 2 ≤ (v ++ rest).length := by
    simp; omega
  rw [if_neg (by omega : ¬ l = 0), if_pos hcond]
  simp only [hl2, List.take_left, List.drop_left,
    OampduTlvTypeOrganizationSpecificInfo, OampduTlvTypeRemoteInfo,
    OampduTlvTypeLocalInfo]
  norm_num

theorem OAMPDUInformation.decodeTlvs_nil (d : OAMPDUInformation) :
    OAMPDUInformation.decodeTlvs d [] = some d := by
  rw [OAMPDUInformation.decodeTlvs]

theorem OAMPDUInformation.decodeTlvs_li_closed (d : OAMPDUInformation)
    (l : Nat) (v : Bytes) (hl : l = v.length + 2) (hlt : l < 256) :
    OAMPDUInformation.decodeTlvs d (tlv8 OampduTlvTypeLocalInfo l v) =
    some { d with LIType := OampduTlvTypeLocalInfo, LILength := l,
                  LIValue := v } := by
  have h := OAMPDUInformation.decodeTlvs_li d l v [] hl hlt
  simpa [OAMPDUInformation.decodeTlvs_nil] using h

theorem OAMPDUInformation.decodeTlvs_ri_closed (d : OAMPDUInformation)
    (l : Nat) (v : Bytes) (hl : l = v.length + 2) (hlt : l < 256) :
    OAMPDUInformation.decodeTlvs d (tlv8 OampduTlvTypeRemoteInfo l v) =
    some { d with RIType := OampduTlvTypeRemoteInfo, RILength := l,
                  RIValue := v } := by
  have h := OAMPDUInformation.decodeTlvs_ri d l v [] hl hlt
  simpa [OAMPDUInformation.decodeTlvs_nil] using h

theorem OAMPDUInformation.decodeTlvs_osi_closed (d : OAMPDUInformation)
    (l : Nat) (v : Bytes) (hl : l = v.length + 2) (hlt : l < 256) :
    OAMPDUInformation.decodeTlvs d
      (tlv8 OampduTlvTypeOrganizationSpecificInfo l v) =
    some { d with OSIType := OampduTlvTypeOrganizationSpecificInfo,
                  OSILength := l, OSIValue := v } := by
  have h := OAMPDUInformation.decodeTlvs_osi d l v [] hl hlt
  simpa [OAMPDUInformation.decodeTlvs_nil] using h

theorem infoDecodeBody (d : OAMPDUInformation)
    (h : d.Wellformed) : OAMPDUInformation.decode d.body = some d := by
  obtain ⟨h1, h2, h3, hli, hri, hosi⟩ := h
  cases d with
  | mk op fl c liT liL liV riT riL riV osiT osiL osiV =>
  simp only at h1 h2 h3 hli hri hosi
  simp only [OAMPDUInformation.body, u16BE, List.cons_append,
    List.nil_append, List.append_assoc]
  rw [OAMPDUInformation.decode]
  rcases hli with ⟨hliL, hliT, hliV⟩ | ⟨hliT, hliL, hliB⟩ <;>
    rcases hri with ⟨hriL, hriT, hriV⟩ | ⟨hriT, hriL, hriB⟩ <;>
      rcases hosi with ⟨hosiL, hosiT, hosiV⟩ | ⟨hosiT, hosiL, hosiB⟩ <;>
  simp_all [OAMPDUInformation.decodeTlvs_li,
    OAMPDUInformation.decodeTlvs_ri,
    OAMPDUInformation.decodeTlvs_osi, OAMPDUInformation.decodeTlvs_nil,
    OAMPDUInformation.decodeTlvs_li_closed,
    OAMPDUInformation.decodeTlvs_ri_closed,
    OAMPDUInformation.decodeTlvs_osi_closed,
    Nat.mod_eq_of_lt h1, Nat.mod_eq_of_lt h3, u16_u16BE fl h2]

theorem infoRoundtrip (d : OAMPDUInformation)
    (h : d.Wellformed) :
    d.serializeTo.bind OAMPDUInformation.decode = some d := by
  have hcond : (d.LILength = 0 ∨ 2 ≤ d.LILength) ∧
      (d.RILength = 0 ∨ 2 ≤ d.RILength) ∧
      (d.OSILength = 0 ∨ 2 ≤ d.OSILength) := by
    obtain ⟨-, -, -, hli, hri, hosi⟩ := h
    refine ⟨?_, ?_, ?_⟩
    · rcases hli with ⟨h0, -, -⟩ | ⟨-, hl, -⟩
      · exact Or.inl h0
      · omega
    · rcases hri with ⟨h0, -, -⟩ | ⟨-, hl, -⟩
      · exact Or.inl h0
      · omega
    · rcases hosi with ⟨h0, -, -⟩ | ⟨-, hl, -⟩
      · exact Or.inl h0
      · omega
  simp [OAMPDUInformation.serializeTo, hcond,
    infoDecodeBody d h]

/-- `OAMPDUInformation.IsOnuPkgA`.  The Go code indexes `OSIValue[0..2]`
    directly; fewer than three value bytes is the panic outcome `none`. -/
def OAMPDUInformation.IsOnuPkgA (d : OAMPDUInformation) : Option Bool :=
  if d.OSILength = 0 then some true
  else if d.OSILength = 7 then
    match d.OSIValue with
    | b0 :: b1 :: b2 :: _ =>
        some (decide (b0 = 0x00) && decide (b1 = 0x10) && decide (b2 = 0x00))
    | _ => none
  else some false

/-- `OAMPDUInformation.IsOnuPkgB`, with the same conventions. -/
def OAMPDUInformation.IsOnuPkgB (d : OAMPDUInformation) : Option Bool :=
  if d.OSILength = 0 then some true
  else if d.OSILength = 7 then
    match d.OSIValue with
    | b0 :: b1 :: b2 :: _ =>
        some (decide (b0 = 0x90) && decide (b1 = 0x82) && decide (b2 = 0x60))
    | _ => none
  else some false

/-! ### Correlation-tag allocator (`message.go`)

`var instance uint32 = 0x5c1f6a60` is incremented under a mutex and the
incremented value is returned; the counter wraps at `2^32` as a Go
`uint32` does. -/

/-- The initial counter value `0x5c1f6a60`. -/
def oltInstanceInit : Nat := 0x5c1f6a60

/-- `getOltInstance` as a state transformer on the counter: the new
    counter value, which is also the returned instance. -/
def getOltInstance (counter : Nat) : Nat × Nat :=
  let next := (counter + 1) % 4294967296
  (next, next)

/-- Counter contents after `n` calls to `getOltInstance` from process
    start. -/
def oltInstanceState : Nat → Nat
  | 0 => oltInstanceInit
  | n + 1 => (getOltInstance (oltInstanceState n)).2

/-- The instance returned by call number `n` (0-based). -/
def oltInstanceValue (n : Nat) : Nat := (getOltInstance (oltInstanceState n)).1

theorem oltInstanceState_closed (n : Nat)
    (h : oltInstanceInit + n < 4294967296) :
    oltInstanceState n = oltInstanceInit + n := by
  induction n with
  | zero => rfl
  | succ k ih =>
      have hk : oltInstanceInit + k < 4294967296 := by omega
      simp [oltInstanceState, getOltInstance, ih hk]
      omega

theorem oltInstanceValue_closed (n : Nat)
    (h : oltInstanceInit + n + 1 < 4294967296) :
    oltInstanceValue n = oltInstanceInit + n + 1 := by
  have hs := oltInstanceState_closed n (by omega)
  simp [oltInstanceValue, getOltInstance, hs]
  omega

/-! ### TOAM Get request (`msg_set_hbtx_template.go`, `msg_get_vendor_name.go`) -/

/-- `TOAMGetRequest` struct. -/
structure TOAMGetRequest where
  Opcode : Nat
  Flags : Nat
  OAMPDUCode : Nat
  OUId : Bytes
  TOMIOpcode : Nat
  CTBranch : Nat
  CTType : Nat
  CTLength : Nat
  CTInstance : Nat
  OCBranch : Nat
  OCType : Nat
  OCLength : Nat
  OCInstance : Nat
  VdBranch : Nat
  VdLeaf : Nat
  EndBranch : Nat
  deriving DecidableEq, Repr

/-- `TOAMGetRequest.Len`: the hard-coded buffer size 29. -/
def TOAMGetRequest.Len (_ : TOAMGetRequest) : Nat := 29

/-- The byte stream `TOAMGetRequest.SerializeTo` writes, in write order:
    header, OUI, TOMI opcode, correlation tag, object context, Vd, end. -/
def TOAMGetRequest.body (d : TOAMGetRequest) : Bytes :=
  [d.Opcode % 256] ++ u16BE d.Flags ++ [d.OAMPDUCode % 256]
  ++ copyPad d.OUId.length d.OUId
  ++ [d.TOMIOpcode % 256]
  ++ [d.CTBranch % 256] ++ u16BE d.CTType ++ [d.CTLength % 256]
  ++ u32BE d.CTInstance
  ++ [d.OCBranch % 256] ++ u16BE d.OCType ++ [d.OCLength % 256]
  ++ u32BE d.OCInstance
  ++ [d.VdBranch % 256] ++ u16BE d.VdLeaf
  ++ [d.EndBranch % 256]

/-- `TOAMGetRequest.SerializeTo` into the `Len()`-byte zeroed buffer;
    unwritten tail bytes stay zero and overflowing the buffer is the
    panic outcome `none`. -/
def TOAMGetRequest.serializeTo (d : TOAMGetRequest) : Option Bytes :=
  let bs := d.body
  if bs.length ≤ d.Len then some (bs ++ List.replicate (d.Len - bs.length) 0)
  else none

/-- `GnerateGetVendorName` (the Go name carries the typo), with the
    correlation-tag instance drawn from the allocator passed in by the
    caller context. -/
def GnerateGetVendorName (ctInstance : Nat) : TOAMGetRequest :=
  { Opcode := 0x03,
    Flags := 0x0050,
    OAMPDUCode := 0xfe,
    OUId := [0x2a, 0xea, 0x15],
    TOMIOpcode := 0x01,
    CTBranch := 0x0c,
    CTType := 0x0c7a,
    CTLength := 4,
    CTInstance := ctInstance,
    OCBranch := 0x0c,
    OCType := 0x0dce,
    OCLength := 4,
    OCInstance := 0x00000000,
    VdBranch := 0xde,
    VdLeaf := 0x0009,
    EndBranch := 0x00 }

/-! ### TPID/VID entries (`msg_autonomous.go`) -/

/-- `TpidVid` struct. -/
structure TpidVid where
  Length : Nat
  TpIDLength : Nat
  TpIDValue : Bytes
  VIdLength : Nat
  VIdValue : Bytes
  deriving DecidableEq, Repr

/-- The TPID value region `serializeTpidVid` emits: nothing when the
    length byte is the sentinel 128 (`0x80`), otherwise a region of
    exactly `TpIDLength` bytes filled from `TpIDValue` by Go `copy`. -/
def TpidVid.tpidSegment (e : TpidVid) : Bytes :=
  if e.TpIDLength ≠ 128 then copyPad e.TpIDLength e.TpIDValue else []

/-- The VID value region `serializeTpidVid` emits, mirroring
    `TpidVid.tpidSegment`. -/
def TpidVid.vidSegment (e : TpidVid) : Bytes :=
  if e.VIdLength ≠ 128 then copyPad e.VIdLength e.VIdValue else []

/-- `serializeTpidVid`: the bytes written for one entry between
    `startIndex` and the returned `nextIndex`, in write order. -/
def serializeTpidVid (e : TpidVid) : Bytes :=
  [e.Length % 256, e.TpIDLength % 256] ++ e.tpidSegment
  ++ [e.VIdLength % 256] ++ e.vidSegment

/-! ### Frame dispatcher (`l2oam_handle.go`)

`dispatch` classifies an inbound Ethernet frame by EtherType and by
whether `FindL2oamDevice(srcMAC)` found a device; `dispatchVlan` (active
because `vlanEnable` is the compile-time constant `true`) accepts only
outer S-tagged frames, strips the tag and re-dispatches the inner frame. -/

/-- The compile-time constant `vlanEnable`. -/
def vlanEnable : Bool := true

/-- What `L2oamHandle.dispatch` does with a frame. -/
inductive DispatchAction where
  /-- `device.receiveEapol(...)` -/
  | receiveEapol : DispatchAction
  /-- `h.packetIn(...)` — forwarded upward as a packet-in event -/
  | packetIn : DispatchAction
  /-- `device.recieveKeepAlive(...)` -/
  | keepAlive : DispatchAction
  /-- `device.recieve(...)` — response-channel delivery -/
  | receiveResp : DispatchAction
  /-- unregistered source on the slow-protocol path: log and `return` -/
  | dropUnregistered : DispatchAction
  /-- unknown EtherType: log only -/
  | dropUnknownType : DispatchAction
  deriving DecidableEq, Repr

/-- `L2oamHandle.dispatch`.  `known` is whether the source MAC resolves in
    the device registry; `payload` is the Ethernet payload.  On the
    slow-protocol branch the Go code reads `bytes[0]` and `bytes[3]`
    before the registry lookup, so a short payload is the panic outcome
    `none`. -/
def dispatch (known : Bool) (etherType : Nat) (payload : Bytes) :
    Option DispatchAction :=
  if etherType = 0x888e then
    some (if known then .receiveEapol else .packetIn)
  else if etherType = 0xa8c8 then
    match payload with
    | b0 :: _ :: _ :: b3 :: _ =>
        if known then
          if b0 = 0x03 ∧ b3 = 0x00 then some .keepAlive
          else some .receiveResp
        else some .dropUnregistered
    | _ => none
  else if etherType = 0x8100 then
    some (if known then .receiveEapol else .packetIn)
  else some .dropUnknownType

/-- What `L2oamHandle.dispatchVlan` does with a frame. -/
inductive VlanAction where
  /-- outer tag removed, inner frame re-dispatched with this result -/
  | dispatched : DispatchAction → VlanAction
  /-- `Discard unsupported etherType` log, nothing delivered -/
  | discarded : VlanAction
  deriving DecidableEq, Repr

/-- `L2oamHandle.dispatchVlan`: only outer EtherType `0x88a8` (QinQ) is
    accepted; the tag is stripped and the inner frame dispatched.  Every
    other outer EtherType is discarded with a log entry. -/
def dispatchVlan (known : Bool) (outerEtherType innerEtherType : Nat)
    (innerPayload : Bytes) : Option VlanAction :=
  if outerEtherType = 0x88a8 then
    (dispatch known innerEtherType innerPayload).map .dispatched
  else some .discarded

/-! ### Add-flow-to-device sequence (`L2oamAddFlowToDevice`, flowVersion 3)

State model: the OLT record's switching-domain object context, stored
command and `FlowAdded` flag, plus the per-ONU records reachable through
`FindL2oamDeviceByDeviceID`.  The messages the sequence sends are recorded
in order; the OLT's response to Generic-Action-Create is a parameter
(`none` models `sendSetGenericActionCreateForDS` failing to produce an
object context, which aborts the call). -/

/-- `TomiObjectContext` struct from `message.go`. -/
structure TomiObjectContext where
  Branch : Nat
  Type' : Nat
  Length : Nat
  Instance : Nat
  deriving DecidableEq, Repr

/-- The flow parameters of `L2oamCmd` that the sequence stores on the OLT
    record (`setL2oamCmd`). -/
structure L2oamCmdState where
  Tpid : Bytes
  Vid : Bytes
  deriving DecidableEq, Repr

/-- The slice of an ONU device record that the sequence reads and
    writes. -/
structure OnuRecord where
  /-- object context from the autonomous registration event, if any -/
  oc : Option TomiObjectContext
  /-- `Base.FlowAdded` -/
  FlowAdded : Bool
  deriving DecidableEq, Repr

/-- The slice of the OLT device record that the sequence reads and
    writes. -/
structure OltRecord where
  /-- stored switching-domain object context (`getObjectContext`) -/
  oc : Option TomiObjectContext
  /-- stored flow parameters (`getL2oamCmd`) -/
  cmd : Option L2oamCmdState
  /-- `Base.FlowAdded` -/
  FlowAdded : Bool
  deriving DecidableEq, Repr

/-- Registry plus OLT state visible to `L2oamAddFlowToDevice`. -/
structure AddFlowState where
  olt : OltRecord
  /-- `FindL2oamDeviceByDeviceID` restricted to ONU records -/
  onus : String → Option OnuRecord

/-- The request PDUs `L2oamAddFlowToDevice` can send, in order. -/
inductive FlowMsg where
  /-- `sendSetGenericActionCreateForDS` — Generic/Action Create (L2 switching) -/
  | genericActionCreateDS : FlowMsg
  /-- `sendSetL2SwitchingDomainForDS` — down-stream Inlet entry -/
  | inletEntryDS : FlowMsg
  /-- `sendSetDefaultOutlet` for the named ONU -/
  | setDefaultOutlet : String → FlowMsg
  /-- `sendSetL2SwitchingDomainForUS` for the named ONU -/
  | inletEntryUS : String → FlowMsg
  deriving DecidableEq, Repr

/-- The per-ONU tail of `L2oamAddFlowToDevice`: look the ONU up, fetch its
    object context, and when both exist send Set-Default-Outlet and the
    up-stream Inlet entry and mark the ONU `FlowAdded`. -/
def addFlowOnuPart (st : AddFlowState) (onuDeviceID : String) :
    AddFlowState × List FlowMsg :=
  match st.onus onuDeviceID with
  | none => (st, [])
  | some onu =>
      match onu.oc with
      | none => (st, [])
      | some _ =>
          ({ st with
              onus := fun id =>
                if id = onuDeviceID then some { onu with FlowAdded := true }
                else st.onus id },
            [.setDefaultOutlet onuDeviceID, .inletEntryUS onuDeviceID])

/-- `L2oamAddFlowToDevice` (the `flowVersion > 1` body): the
    Generic-Action-Create / down-stream-Inlet-entry pair runs only when
    the OLT has no stored switching-domain object context; `createResp`
    is the object context parsed from the OLT's response (`none` aborts
    with an error after the create request was already sent). -/
def L2oamAddFlowToDevice (st : AddFlowState) (cmd : L2oamCmdState)
    (onuDeviceID : String) (createResp : Option TomiObjectContext) :
    AddFlowState × List FlowMsg :=
  match st.olt.oc with
  | none =>
      match createResp with
      | none => (st, [.genericActionCreateDS])
      | some oc =>
          let st1 : AddFlowState :=
            { st with
                olt := { oc := some oc, cmd := some cmd, FlowAdded := true } }
          let (st2, msgs2) := addFlowOnuPart st1 onuDeviceID
          (st2, [.genericActionCreateDS, .inletEntryDS] ++ msgs2)
  | some _ =>
      let (st2, msgs2) := addFlowOnuPart st onuDeviceID
      (st2, msgs2)

/-! ### ONU status ledger (`onu_status.go` part, `olt_onu_msg.go`)

A JSON list of `OnuStatus` records in `$HOME/onu_list.json`, re-read by
`WatchStatus` on a 1000 ms ticker. -/

/-- `OnuStatus` struct. -/
structure OnuStatus where
  ID : String
  AdminState : String
  OpeState : String
  ConnectState : String
  MacAddress : String
  RebootState : String
  deriving DecidableEq, Repr

/-- The observable states of the ledger file for a read. -/
inductive OnuFile where
  /-- the file does not exist (`os.IsNotExist`) -/
  | absent : OnuFile
  /-- the file exists but reading or JSON-unmarshalling fails -/
  | damaged : OnuFile
  /-- the file parses to this record list -/
  | valid : List OnuStatus → OnuFile
  deriving DecidableEq, Repr

/-- `ReadOnuStatusList`: an absent file yields `(nil, nil)` — the empty
    result with no error; a read/parse failure yields an error; otherwise
    the parsed list. -/
def ReadOnuStatusList : OnuFile → Except Unit (Option (List OnuStatus))
  | .absent => .ok none
  | .damaged => .error ()
  | .valid l => .ok (some l)

/-- The `WatchStatus` ticker period in milliseconds
    (`time.NewTicker(1000 * time.Millisecond)`). -/
def watchStatusPeriodMs : Nat := 1000

/-- One pass of the `WatchStatus` loop body over the record list read
    from the file.  `deviceExists` is whether `FindL2oamDevice(mac)`
    resolves.  For each record in `reboot` state the flag is cleared
    in place (before the device lookup); when the device exists the
    Set-Reset-ONU message is sent to that MAC (send or response errors
    only `continue`).  Returns the modified list — which
    `WriteOnuStatusList` then rewrites as the whole file — and the MACs a
    reset was sent to, in order. -/
def watchStatusPass (deviceExists : String → Bool) :
    List OnuStatus → List OnuStatus × List String
  | [] => ([], [])
  | onu :: rest =>
      let (rest', sends) := watchStatusPass deviceExists rest
      if onu.RebootState = "reboot" then
        let cleared := { onu with RebootState := "" }
        if deviceExists onu.MacAddress then
          (cleared :: rest', onu.MacAddress :: sends)
        else
          (cleared :: rest', sends)
      else (onu :: rest', sends)

/-- The scan inside `GetOnuFromDeviceID`: return the first record whose
    `ID` does **not** equal the argument. -/
def firstNonMatching (id : String) : List OnuStatus → Option OnuStatus
  | [] => none
  | sts :: rest =>
      if sts.ID ≠ id then some sts else firstNonMatching id rest

/-- `GetOnuFromDeviceID` over the outcome of `ReadOnuStatusList`: errors
    and the nil list give `nil`; otherwise the scan above. -/
def GetOnuFromDeviceID (file : OnuFile) (id : String) :
    Except Unit (Option OnuStatus) :=
  match ReadOnuStatusList file with
  | .error e => .error e
  | .ok none => .ok none
  | .ok (some l) => .ok (firstNonMatching id l)

/-! ## Claim theorems -/

/-- A legal concrete `DiscoverySolicit` carrying the generator's field
    values with every length field matching its value bytes. -/
def solicitSample : DiscoverySolicit :=
  { Opcode := 0xfd, DiscoveryType := 0x01, VendorType := 0xfe,
    Length := 33,
    VendorIDType := 0xfd, VendorIDLength := 3, VendorID := [0x2a, 0xea, 0x15],
    CPType := 0x05, CPLength := 1, CPValue := [128],
    NWType := 0x06, NWLength := 12,
    NWValue := [0x74, 0x69, 0x62, 0x69, 0x74, 0x63, 0x6f, 0x6d,
      0x2e, 0x63, 0x6f, 0x6d],
    DVType := 0x07, DVLength := 1, DVValue := [1],
    SCPType := 0x08, SCPLength := 1, SCPValue := [0x03],
    PadType := 0xff, PadLength := 1, PadValue := [0] }

/-- A legal concrete `DiscoveryHello`. -/
def helloSample : DiscoveryHello :=
  { Opcode := 0xfd, DiscoveryType := 0x02, VendorType := 0xfe,
    Length := 26,
    VendorIDType := 0xfd, VendorIDLength := 3, VendorID := [0x2a, 0xea, 0x15],
    NWType := 0x06, NWLength := 4, NWValue := [0x74, 0x69, 0x62, 0x69],
    DVType := 0x07, DVLength := 1, DVValue := [2],
    SCPType := 0x08, SCPLength := 1, SCPValue := [0x03],
    TunnelType := 0x0a, TunnelLength := 2, TunnelValue := [0x01, 0x02],
    PadType := 0xff, PadLength := 1, PadValue := [0] }

/-- A legal concrete `OAMPDUInformation` in the second-keepalive shape. -/
def infoSample : OAMPDUInformation :=
  { Opcode := 0x03, Flags := 0x0030, Code := 0x00,
    LIType := 0x01, LILength := 16,
    LIValue := [0x01, 0x00, 0x00, 0x00, 0x1b, 0x04, 0xb0, 0x2a,
      0xea, 0x15, 0x00, 0x00, 0x00, 0x23],
    RIType := 0x02, RILength := 16,
    RIValue := [0x01, 0x00, 0x00, 0x00, 0x1b, 0x04, 0xb0, 0x2a,
      0xea, 0x15, 0x00, 0x00, 0x00, 0x24],
    OSIType := 0xfe, OSILength := 7,
    OSIValue := [0x00, 0x10, 0x00, 0x00, 0x23] }

/-- C1: for every PDU shape of the frame codec — Discovery Solicit,
    Discovery Hello, OAMPDU-Information — and every legal value of that
    shape (each length field equal to the byte count of the value bytes
    it declares), decoding the bytes produced by encoding the value
    yields the value again. -/
theorem claim_C1_codec_roundtrip (s : DiscoverySolicit) (h : DiscoveryHello)
    (o : OAMPDUInformation) (hs : s.Wellformed) (hh : h.Wellformed)
    (ho : o.Wellformed) :
    s.serializeTo.bind DiscoverySolicit.decode = some s ∧
    h.serializeTo.bind DiscoveryHello.decode = some h ∧
    o.serializeTo.bind OAMPDUInformation.decode = some o :=
  ⟨solicitRoundtrip s hs, helloRoundtrip h hh, infoRoundtrip o ho⟩

/-- Witness for C1 at concrete legal frames of all three shapes. -/
theorem claim_C1_codec_roundtrip_witness :
    solicitSample.Wellformed ∧ helloSample.Wellformed ∧
    infoSample.Wellformed ∧
    (solicitSample.serializeTo.bind DiscoverySolicit.decode
        = some solicitSample ∧
      helloSample.serializeTo.bind DiscoveryHello.decode = some helloSample ∧
      infoSample.serializeTo.bind OAMPDUInformation.decode
        = some infoSample) :=
  ⟨by decide, by decide, by decide,
    claim_C1_codec_roundtrip solicitSample helloSample infoSample
      (by decide) (by decide) (by decide)⟩

/-- C2: the correlation-tag allocator is one 32-bit counter starting at
    `0x5c1f6a60`, incremented by one per call, so the instances stamped on
    successive OLT-management requests strictly increase (for any two call
    positions the counter reaches before wrapping), and the first three
    generated requests carry `k`, `k+1`, `k+2` for `k = 0x5c1f6a61`. -/
theorem claim_C2_correlation_tags (i j : Nat) (hij : i < j)
    (hwrap : oltInstanceInit + j + 1 < 4294967296) :
    oltInstanceInit = 0x5c1f6a60 ∧
    oltInstanceValue i < oltInstanceValue j ∧
    oltInstanceValue 0 = 0x5c1f6a61 ∧
    oltInstanceValue 1 = oltInstanceValue 0 + 1 ∧
    oltInstanceValue 2 = oltInstanceValue 1 + 1 := by
  have hi := oltInstanceValue_closed i (by omega)
  have hj := oltInstanceValue_closed j hwrap
  have h0 := oltInstanceValue_closed 0 (by norm_num [oltInstanceInit])
  have h1 := oltInstanceValue_closed 1 (by norm_num [oltInstanceInit])
  have h2 := oltInstanceValue_closed 2 (by norm_num [oltInstanceInit])
  refine ⟨rfl, ?_, ?_, ?_, ?_⟩
  · rw [hi, hj]; omega
  · rw [h0]; norm_num [oltInstanceInit]
  · rw [h0, h1]
  · rw [h1, h2]

/-- Witness for C2 at the first two calls. -/
theorem claim_C2_correlation_tags_witness :
    0 < 1 ∧ oltInstanceInit + 1 + 1 < 4294967296 ∧
    (oltInstanceInit = 0x5c1f6a60 ∧
      oltInstanceValue 0 < oltInstanceValue 1 ∧
      oltInstanceValue 0 = 0x5c1f6a61 ∧
      oltInstanceValue 1 = oltInstanceValue 0 + 1 ∧
      oltInstanceValue 2 = oltInstanceValue 1 + 1) :=
  ⟨by decide, by decide, claim_C2_correlation_tags 0 1 (by decide) (by decide)⟩

/-- C3 counterexample: at the concrete correlation-tag instance the first
    allocator call yields, encoding the generated Get-Vendor-Name request
    puts `de 00 09` at bytes 24..26, so bytes 25..27 read `00 09 00` and
    the claimed layout `bytes[25..27] = de 00 09` is false. -/
theorem claim_C3_counterexample :
    (((GnerateGetVendorName 0x5c1f6a61).serializeTo.getD []).drop 24).take 3
        = [0xde, 0x00, 0x09] ∧
    (((GnerateGetVendorName 0x5c1f6a61).serializeTo.getD []).drop 25).take 3
        = [0x00, 0x09, 0x00] ∧
    (((GnerateGetVendorName 0x5c1f6a61).serializeTo.getD []).drop 25).take 3
        ≠ [0xde, 0x00, 0x09] := by
  decide

/-- C3 (amended): encoding the generated Get-Vendor-Name request produces
    exactly 29 bytes with `bytes[0..3] = 03 00 50 fe`, the OUI
    `2a ea 15` at bytes 4..6, the TOMI opcode `01` at byte 7, the Vd
    triple `de 00 09` at bytes 24..26, the end byte `00` at byte 27, and
    an unwritten zero pad byte at byte 28 (the serializer fills 28 bytes
    of the 29-byte buffer `Len()` reserves). -/
theorem claim_C3_get_vendor_name_layout (ct : Nat) :
    ∃ bs, (GnerateGetVendorName ct).serializeTo = some bs ∧
      bs.length = 29 ∧
      bs.take 4 = [0x03, 0x00, 0x50, 0xfe] ∧
      (bs.drop 4).take 3 = [0x2a, 0xea, 0x15] ∧
      bs.getD 7 0 = 0x01 ∧
      (bs.drop 24).take 3 = [0xde, 0x00, 0x09] ∧
      bs.getD 27 0 = 0x00 ∧
      bs.getD 28 0 = 0x00 := by
  refine ⟨[0x03, 0x00, 0x50, 0xfe, 0x2a, 0xea, 0x15, 0x01,
      0x0c, 0x0c, 0x7a, 0x04] ++ u32BE ct ++
      [0x0c, 0x0d, 0xce, 0x04, 0x00, 0x00, 0x00, 0x00,
       0xde, 0x00, 0x09, 0x00, 0x00], ?_, ?_, ?_, ?_, ?_, ?_, ?_, ?_⟩
  · norm_num [GnerateGetVendorName, TOAMGetRequest.serializeTo,
      TOAMGetRequest.body, TOAMGetRequest.Len, u16BE, u32BE, copyPad]
  all_goals simp [u32BE, List.getD]

/-- C4 helper: a concrete switching-domain object context for witnesses. -/
def ocSample : TomiObjectContext :=
  { Branch := 0x0c, Type' := 0x002e, Length := 4, Instance := 1 }

/-- C4: invoking add-flow-to-device for ONU-A and then ONU-B on the same
    OLT sends Generic-Action-Create and the down-stream Inlet entry only
    on the first call (first call meaning the OLT's stored switching-domain
    object context is nil); the second call sends only Set-Default-Outlet
    and the up-stream Inlet entry; afterwards both ONU records and the OLT
    record have `FlowAdded = true` and the OLT holds a non-nil
    switching-domain object context. -/
theorem claim_C4_add_flow_to_device (st0 : AddFlowState)
    (cmdA cmdB : L2oamCmdState) (A B : String)
    (oc : TomiObjectContext) (resp2 : Option TomiObjectContext)
    (recA recB : OnuRecord) (ocA ocB : TomiObjectContext)
    (holt : st0.olt.oc = none)
    (hA : st0.onus A = some recA) (hAoc : recA.oc = some ocA)
    (hB : st0.onus B = some recB) (hBoc : recB.oc = some ocB)
    (hAB : A ≠ B) :
    (L2oamAddFlowToDevice st0 cmdA A (some oc)).2 =
      [.genericActionCreateDS, .inletEntryDS,
        .setDefaultOutlet A, .inletEntryUS A] ∧
    (L2oamAddFlowToDevice (L2oamAddFlowToDevice st0 cmdA A (some oc)).1
        cmdB B resp2).2 = [.setDefaultOutlet B, .inletEntryUS B] ∧
    (∃ ra, (L2oamAddFlowToDevice (L2oamAddFlowToDevice st0 cmdA A
        (some oc)).1 cmdB B resp2).1.onus A = some ra ∧
        ra.FlowAdded = true) ∧
    (∃ rb, (L2oamAddFlowToDevice (L2oamAddFlowToDevice st0 cmdA A
        (some oc)).1 cmdB B resp2).1.onus B = some rb ∧
        rb.FlowAdded = true) ∧
    (L2oamAddFlowToDevice (L2oamAddFlowToDevice st0 cmdA A
        (some oc)).1 cmdB B resp2).1.olt.FlowAdded = true ∧
    (L2oamAddFlowToDevice (L2oamAddFlowToDevice st0 cmdA A
        (some oc)).1 cmdB B resp2).1.olt.oc ≠ none := by
  have hBA : ¬ B = A := fun heq => hAB heq.symm
  simp [L2oamAddFlowToDevice, addFlowOnuPart, holt, hA, hAoc, hB, hBoc,
    hAB, hBA]

/-- C4 witness registry: ONU records "onu-a" and "onu-b", both registered
    with object contexts, no flows added. -/
def addFlowStateSample : AddFlowState :=
  { olt := { oc := none, cmd := none, FlowAdded := false },
    onus := fun id =>
      if id = "onu-a" then
        some { oc := some { Branch := 0x0c, Type' := 0x0011, Length := 4,
                            Instance := 1 }, FlowAdded := false }
      else if id = "onu-b" then
        some { oc := some { Branch := 0x0c, Type' := 0x0011, Length := 4,
                            Instance := 2 }, FlowAdded := false }
      else none }

/-- Witness for C4 on the concrete two-ONU registry. -/
theorem claim_C4_add_flow_to_device_witness :
    ((L2oamAddFlowToDevice addFlowStateSample
        { Tpid := [0x88, 0xa8], Vid := [0x00, 0x64] } "onu-a"
        (some ocSample)).2 =
      [.genericActionCreateDS, .inletEntryDS,
        .setDefaultOutlet "onu-a", .inletEntryUS "onu-a"] ∧
    (L2oamAddFlowToDevice (L2oamAddFlowToDevice addFlowStateSample
        { Tpid := [0x88, 0xa8], Vid := [0x00, 0x64] } "onu-a"
        (some ocSample)).1
        { Tpid := [0x88, 0xa8], Vid := [0x00, 0x64] } "onu-b" none).2 =
      [.setDefaultOutlet "onu-b", .inletEntryUS "onu-b"] ∧
    (∃ ra, (L2oamAddFlowToDevice (L2oamAddFlowToDevice addFlowStateSample
        { Tpid := [0x88, 0xa8], Vid := [0x00, 0x64] } "onu-a"
        (some ocSample)).1
        { Tpid := [0x88, 0xa8], Vid := [0x00, 0x64] } "onu-b" none).1.onus
        "onu-a" = some ra ∧ ra.FlowAdded = true) ∧
    (∃ rb, (L2oamAddFlowToDevice (L2oamAddFlowToDevice addFlowStateSample
        { Tpid := [0x88, 0xa8], Vid := [0x00, 0x64] } "onu-a"
        (some ocSample)).1
        { Tpid := [0x88, 0xa8], Vid := [0x00, 0x64] } "onu-b" none).1.onus
        "onu-b" = some rb ∧ rb.FlowAdded = true) ∧
    (L2oamAddFlowToDevice (L2oamAddFlowToDevice addFlowStateSample
        { Tpid := [0x88, 0xa8], Vid := [0x00, 0x64] } "onu-a"
        (some ocSample)).1
        { Tpid := [0x88, 0xa8], Vid := [0x00, 0x64] } "onu-b" none).1.olt.FlowAdded
        = true ∧
    (L2oamAddFlowToDevice (L2oamAddFlowToDevice addFlowStateSample
        { Tpid := [0x88, 0xa8], Vid := [0x00, 0x64] } "onu-a"
        (some ocSample)).1
        { Tpid := [0x88, 0xa8], Vid := [0x00, 0x64] } "onu-b" none).1.olt.oc
        ≠ none) :=
  claim_C4_add_flow_to_device addFlowStateSample
    { Tpid := [0x88, 0xa8], Vid := [0x00, 0x64] }
    { Tpid := [0x88, 0xa8], Vid := [0x00, 0x64] } "onu-a" "onu-b"
    ocSample none
    { oc := some { Branch := 0x0c, Type' := 0x0011, Length := 4,
                   Instance := 1 }, FlowAdded := false }
    { oc := some { Branch := 0x0c, Type' := 0x0011, Length := 4,
                   Instance := 2 }, FlowAdded := false }
    { Branch := 0x0c, Type' := 0x0011, Length := 4, Instance := 1 }
    { Branch := 0x0c, Type' := 0x0011, Length := 4, Instance := 2 }
    rfl (by simp [addFlowStateSample]) rfl
    (by simp [addFlowStateSample]) rfl (by decide)

/-- C5: for every TPID/VID entry serialized into an L2-switching-domain
    request, the TPID value region is empty when the TPID length byte is
    the sentinel `0x80` and otherwise spans exactly `TpIDLength` bytes,
    and the VID value region behaves the same way; the entry is emitted
    as length byte, TPID length byte, TPID region, VID length byte, VID
    region. -/
theorem claim_C5_tpid_vid_lengths (e : TpidVid) :
    serializeTpidVid e = [e.Length % 256, e.TpIDLength % 256]
      ++ e.tpidSegment ++ [e.VIdLength % 256] ++ e.vidSegment ∧
    e.tpidSegment.length = (if e.TpIDLength = 128 then 0 else e.TpIDLength) ∧
    e.vidSegment.length = (if e.VIdLength = 128 then 0 else e.VIdLength) := by
  refine ⟨by simp [serializeTpidVid], ?_, ?_⟩
  · by_cases h : e.TpIDLength = 128 <;>
      simp [TpidVid.tpidSegment, h, copyPad_length]
  · by_cases h : e.VIdLength = 128 <;>
      simp [TpidVid.vidSegment, h, copyPad_length]

/-- C6: package-variant classification of a decoded OAMPDU-Information
    frame: OSI length 7 with first three value bytes `00 10 00` is
    variant A and not B; OSI length 7 with `90 82 60` is variant B and
    not A; OSI length 0 matches both variants. -/
theorem claim_C6_package_variant (d : OAMPDUInformation) :
    (d.OSILength = 7 → d.OSIValue.take 3 = [0x00, 0x10, 0x00] →
      d.IsOnuPkgA = some true ∧ d.IsOnuPkgB = some false) ∧
    (d.OSILength = 7 → d.OSIValue.take 3 = [0x90, 0x82, 0x60] →
      d.IsOnuPkgB = some true ∧ d.IsOnuPkgA = some false) ∧
    (d.OSILength = 0 →
      d.IsOnuPkgA = some true ∧ d.IsOnuPkgB = some true) := by
  refine ⟨?_, ?_, ?_⟩
  · intro h7 hv
    match hval : d.OSIValue with
    | b0 :: b1 :: b2 :: rest =>
        rw [hval] at hv
        simp at hv
        simp [OAMPDUInformation.IsOnuPkgA, OAMPDUInformation.IsOnuPkgB,
          h7, hval, hv]
    | [] | [_] | [_, _] => rw [hval] at hv; simp at hv
  · intro h7 hv
    match hval : d.OSIValue with
    | b0 :: b1 :: b2 :: rest =>
        rw [hval] at hv
        simp at hv
        simp [OAMPDUInformation.IsOnuPkgA, OAMPDUInformation.IsOnuPkgB,
          h7, hval, hv]
    | [] | [_] | [_, _] => rw [hval] at hv; simp at hv
  · intro h0
    simp [OAMPDUInformation.IsOnuPkgA, OAMPDUInformation.IsOnuPkgB, h0]

/-- A concrete variant-A classified frame for the C6 witness. -/
def infoPkgASample : OAMPDUInformation :=
  { Opcode := 0x03, Flags := 0x0008, Code := 0x00,
    LIType := 0x01, LILength := 16,
    LIValue := [0x01, 0x00, 0x00, 0x00, 0x1b, 0x04, 0xb0, 0x2a,
      0xea, 0x15, 0x00, 0x00, 0x00, 0x23],
    RIType := 0, RILength := 0, RIValue := [],
    OSIType := 0xfe, OSILength := 7,
    OSIValue := [0x00, 0x10, 0x00, 0x00, 0x23] }

/-- Witness for C6 at a concrete variant-A frame. -/
theorem claim_C6_package_variant_witness :
    infoPkgASample.IsOnuPkgA = some true ∧
    infoPkgASample.IsOnuPkgB = some false :=
  (claim_C6_package_variant infoPkgASample).1 (by decide) (by decide)

/-- C7 counterexample: an unregistered-source slow-protocol (`0xa8c8`)
    frame is logged and dropped, not forwarded as a packet-in. -/
theorem claim_C7_counterexample :
    dispatch false 0xa8c8 [0x03, 0x00, 0x50, 0x00]
        = some .dropUnregistered ∧
    dispatch false 0xa8c8 [0x03, 0x00, 0x50, 0x00]
        ≠ some .packetIn := by
  decide

/-- C7 (amended): an inbound frame whose source MAC is not in the device
    registry is forwarded upward as a packet-in event on the EAPOL
    (`0x888e`) and C-tag (`0x8100`) paths; on the slow-protocol
    (`0xa8c8`) path an unknown source is logged and the frame dropped
    without a packet-in. -/
theorem claim_C7_unknown_source (p : Bytes) (b0 b1 b2 b3 : Nat)
    (rest : Bytes) :
    dispatch false 0x888e p = some .packetIn ∧
    dispatch false 0x8100 p = some .packetIn ∧
    dispatch false 0xa8c8 (b0 :: b1 :: b2 :: b3 :: rest)
        = some .dropUnregistered := by
  refine ⟨rfl, by simp [dispatch], by simp [dispatch]⟩

/-- C8: the ledger poll loop runs on a 1000 ms ticker; a reader of an
    absent file gets the empty result with no error; and one pass over
    the list read from the file clears the reboot flag of every record
    whose `reboot_state` is `"reboot"` (the whole modified list is then
    rewritten as the file) while sending Set-Reset-ONU exactly to the
    MAC addresses of the reboot-flagged records whose device lookup
    succeeds, in list order. -/
theorem claim_C8_watch_status (dev : String → Bool) (l : List OnuStatus) :
    watchStatusPeriodMs = 1000 ∧
    ReadOnuStatusList .absent = .ok none ∧
    (watchStatusPass dev l).1 = l.map (fun o =>
      if o.RebootState = "reboot" then { o with RebootState := "" }
      else o) ∧
    (watchStatusPass dev l).2 = (l.filter (fun o =>
      decide (o.RebootState = "reboot") && dev o.MacAddress)).map
        (·.MacAddress) := by
  refine ⟨rfl, rfl, ?_, ?_⟩ <;>
  · induction l with
    | nil => simp [watchStatusPass]
    | cons o rest ih =>
        by_cases hreb : o.RebootState = "reboot" <;>
          by_cases hdev : dev o.MacAddress <;>
            simp [watchStatusPass, hreb, hdev, ih]

/-- C9: `GetOnuFromDeviceID` returns the first ledger record whose ID
    does **not** match the argument, and returns nil when the file is
    absent, the list is empty, or every record's ID equals the
    argument. -/
theorem claim_C9_get_onu_from_device_id (id : String) :
    GetOnuFromDeviceID .absent id = .ok none ∧
    GetOnuFromDeviceID (.valid []) id = .ok none ∧
    (∀ l, (∀ s ∈ l, s.ID = id) →
      GetOnuFromDeviceID (.valid l) id = .ok none) ∧
    (∀ pre s post, (∀ t ∈ pre, t.ID = id) → s.ID ≠ id →
      GetOnuFromDeviceID (.valid (pre ++ s :: post)) id = .ok (some s)) := by
  refine ⟨rfl, rfl, ?_, ?_⟩
  · intro l hall
    simp only [GetOnuFromDeviceID, ReadOnuStatusList]
    induction l with
    | nil => rfl
    | cons s rest ih =>
        have hs : s.ID = id := hall s (by simp)
        have hrest : ∀ t ∈ rest, t.ID = id := fun t ht =>
          hall t (by simp [ht])
        simpa [firstNonMatching, hs] using ih hrest
  · intro pre s post hall hs
    simp only [GetOnuFromDeviceID, ReadOnuStatusList]
    induction pre with
    | nil => simp [firstNonMatching, hs]
    | cons t rest ih =>
        have ht : t.ID = id := hall t (by simp)
        have hrest : ∀ u ∈ rest, u.ID = id := fun u hu =>
          hall u (by simp [hu])
        simpa [firstNonMatching, ht] using ih hrest

/-- A ledger for the C9 witness: the first record matches the queried ID,
    the second does not, and it is the second that is returned. -/
def onuLedgerSample : List OnuStatus :=
  [{ ID := "onu-x", AdminState := "up", OpeState := "up",
     ConnectState := "up", MacAddress := "00aabbccddee",
     RebootState := "" },
   { ID := "onu-y", AdminState := "up", OpeState := "up",
     ConnectState := "up", MacAddress := "00aabbccddef",
     RebootState := "" }]

/-- Witness for C9: querying the sample ledger for `"onu-x"` skips the
    matching first record and returns the non-matching second one. -/
theorem claim_C9_get_onu_from_device_id_witness :
    GetOnuFromDeviceID (.valid onuLedgerSample) "onu-x"
      = .ok (some { ID := "onu-y", AdminState := "up", OpeState := "up",
                    ConnectState := "up", MacAddress := "00aabbccddef",
                    RebootState := "" }) :=
  (claim_C9_get_onu_from_device_id "onu-x").2.2.2
    [{ ID := "onu-x", AdminState := "up", OpeState := "up",
       ConnectState := "up", MacAddress := "00aabbccddee",
       RebootState := "" }]
    { ID := "onu-y", AdminState := "up", OpeState := "up",
      ConnectState := "up", MacAddress := "00aabbccddef",
      RebootState := "" }
    [] (by decide) (by decide)

/-- C10: with VLAN mode compiled in (`vlanEnable = true`), every inbound
    frame whose outer EtherType is not `0x88a8` is discarded with only a
    log entry — in particular untagged slow-protocol (`0xa8c8`), EAPOL
    (`0x888e`) and C-tagged (`0x8100`) frames are never delivered to a
    device path and never forwarded as packet-in, whether or not the
    source is registered. -/
theorem claim_C10_vlan_discard (known : Bool) (innerEt : Nat) (p : Bytes) :
    vlanEnable = true ∧
    dispatchVlan known 0xa8c8 innerEt p = some .discarded ∧
    dispatchVlan known 0x888e innerEt p = some .discarded ∧
    dispatchVlan known 0x8100 innerEt p = some .discarded := by
  refine ⟨rfl, ?_, ?_, ?_⟩ <;> simp [dispatchVlan]

end EponOlt
